import Mathlib

/-!
Verification development for the telemetry subsystem of a Python
model-inference server (`llama_cpp/_utils.py`, `llama_cpp/_logger.py`,
`llama_cpp/llama_metrics.py`).

The Python sources are shallowly embedded: pure helpers become Lean
functions on `List Char` / `String`, Python `float` values are modelled
as exact rationals (no floating-point rounding is exercised by the
statements proved here), Python exceptions become `Except String`
results, and the external `nvidia-smi` invocation is modelled by an
explicit `ToolResult` input describing what `subprocess.check_output`
did (tool absent, tool failed, or the tool's decoded stdout).
-/

/-! ### Python string primitives -/

/-- Characters stripped by Python `str.strip()` / `bytes.strip()` when the
data is ASCII (the only case exercised here): space, tab, LF, CR, VT, FF. -/
def pyIsSpace (c : Char) : Bool :=
  c = ' ' || c = '\t' || c = '\n' || c = '\r' || c = '\x0b' || c = '\x0c'

/-- Python `str.strip()` on a list of characters: drop whitespace from both
ends. -/
def pyStripChars (l : List Char) : List Char :=
  ((l.dropWhile pyIsSpace).reverse.dropWhile pyIsSpace).reverse

/-- Fuel-indexed worker for `splitOnL`; the fuel starts at the length of the
input, which bounds the number of split steps, so the fuel never runs out. -/
def splitOnAuxF (sep : List Char) : Nat → List Char → List Char → List (List Char)
  | _, acc, [] => [acc.reverse]
  | 0, acc, xs => [acc.reverse ++ xs]
  | Nat.succ n, acc, x :: xs =>
    if sep.isPrefixOf (x :: xs) then
      acc.reverse :: splitOnAuxF sep n [] (List.drop sep.length (x :: xs))
    else
      splitOnAuxF sep n (x :: acc) xs

/-- Python `str.split(sep)` for a non-empty separator: left-to-right scan,
emitting the piece before each non-overlapping occurrence of `sep`.  In
particular `[] .split sep = [[]]`, matching Python's `"".split(s) == [""]`. -/
def splitOnL (sep xs : List Char) : List (List Char) :=
  if sep.isEmpty then [xs] else splitOnAuxF sep xs.length [] xs

/-- Worker for `pySplitWs`, accumulating the current word in reverse. -/
def pySplitWsAux : List Char → List Char → List (List Char)
  | [], cur => if cur.isEmpty then [] else [cur.reverse]
  | c :: cs, cur =>
    if pyIsSpace c then
      if cur.isEmpty then pySplitWsAux cs [] else cur.reverse :: pySplitWsAux cs []
    else
      pySplitWsAux cs (c :: cur)

/-- Python `str.split()` with no argument: split on runs of whitespace and
drop empty pieces. -/
def pySplitWs (l : List Char) : List (List Char) :=
  pySplitWsAux l []

/-- Value of a digit string, most significant first (`"512"` gives `512`). -/
def digitsToNat (l : List Char) : Nat :=
  l.foldl (fun n c => n * 10 + (c.toNat - 48)) 0

/-- All characters are ASCII digits. -/
def allDigits (l : List Char) : Bool :=
  l.all Char.isDigit

/-- Python `int(s)`: strip whitespace, optional sign, then a non-empty digit
string.  (Underscore digit grouping is not modelled; no input in this
development uses it.) -/
def parsePyInt (l : List Char) : Option Int :=
  match pyStripChars l with
  | [] => none
  | '+' :: ds => if ds.isEmpty then none else if allDigits ds then some (digitsToNat ds : Int) else none
  | '-' :: ds => if ds.isEmpty then none else if allDigits ds then some (-(digitsToNat ds : Int)) else none
  | ds => if allDigits ds then some (digitsToNat ds : Int) else none

/-- Unsigned core of Python `float(s)`: digits with an optional decimal
point (`"512"`, `"1."`, `".5"`, `"1.5"`).  Exponent, `inf` and `nan` forms
are not modelled; no input in this development uses them. -/
def parsePyFloatCore (l : List Char) : Option ℚ :=
  match l.span Char.isDigit with
  | (ip, []) => if ip.isEmpty then none else some (digitsToNat ip : ℚ)
  | (ip, '.' :: fr) =>
    if allDigits fr && !(ip.isEmpty && fr.isEmpty) then
      some ((digitsToNat ip : ℚ) + (digitsToNat fr : ℚ) / ((10 : ℚ) ^ fr.length))
    else none
  | _ => none

/-- Python `float(s)`: strip whitespace, optional sign, unsigned core. -/
def parsePyFloat (l : List Char) : Option ℚ :=
  match pyStripChars l with
  | [] => none
  | '+' :: r => parsePyFloatCore r
  | '-' :: r => (parsePyFloatCore r).map (fun q => -q)
  | r => parsePyFloatCore r

/-! ### Resource sampler: `get_gpu_info_by_pid` / `get_gpu_general_info`
(`llama_cpp/_utils.py`)

The `subprocess.check_output(["nvidia-smi", ...]).decode("utf-8")` call is
modelled by a `ToolResult` input: `absent` stands for `FileNotFoundError`
(no such executable), `failed` for `subprocess.CalledProcessError`
(non-zero exit), and `output s` for a successful run whose decoded stdout
is `s`.  The Python `try` block catches exactly
`(subprocess.CalledProcessError, FileNotFoundError)`; any exception raised
while parsing the output is *not* caught and is modelled as
`Except.error`. -/

/-- Outcome of invoking the external accelerator-query tool. -/
inductive ToolResult where
  | absent : ToolResult
  | failed : ToolResult
  | output : String → ToolResult
deriving DecidableEq

/-- The separator `", "` used by `info.split(", ")`. -/
def commaSep : List Char := [',', ' ']

/-- Lines of the tool output: `gpu_info.strip().split("\n")`. -/
def linesOf (s : String) : List (List Char) :=
  splitOnL ['\n'] (pyStripChars s.data)

/-- The memory/utilization field value: `float(field.split()[0])`.  Returns
`none` when Python would raise (`IndexError` on an empty split,
`ValueError` on a non-numeric token). -/
def memVal (l : List Char) : Option ℚ :=
  match pySplitWs l with
  | [] => none
  | w :: _ => parsePyFloat w

/-- The `for info in gpu_info:` loop body of `get_gpu_info_by_pid`: each line
is split on `", "` and unpacked into `gpu_pid, gpu_ram_usage` (a
`ValueError` if the piece count is not 2), the pid is parsed with `int`
(`ValueError` if malformed), and on a pid match the function returns
`float(gpu_ram_usage.split()[0])`.  Falling off the loop returns `0.0`. -/
def gpuLoop (pid : Int) : List (List Char) → Except String ℚ
  | [] => .ok 0
  | line :: rest =>
    match splitOnL commaSep line with
    | [gpu_pid, gpu_ram_usage] =>
      match parsePyInt gpu_pid with
      | none => .error "ValueError"
      | some p =>
        if p = pid then
          match memVal gpu_ram_usage with
          | none => .error "ValueError"
          | some q => .ok q
        else gpuLoop pid rest
    | _ => .error "ValueError"

/-- `get_gpu_info_by_pid(pid)` from `llama_cpp/_utils.py`, with the external
tool's behaviour made explicit.  `absent`/`failed` are caught by the
`except` clause and fall through to `return 0.0`. -/
def get_gpu_info_by_pid : ToolResult → Int → Except String ℚ
  | .absent, _ => .ok 0
  | .failed, _ => .ok 0
  | .output s, pid => gpuLoop pid (linesOf s)

/-- First line of the tool output: `gpu_info.strip().split("\n")[0]`
(`split` never returns an empty list, so index 0 always exists). -/
def firstLine (s : String) : List Char :=
  (linesOf s).headD []

/-- `get_gpu_general_info()` from `llama_cpp/_utils.py`.  The first output
line is split on `", "` and unpacked into three fields (a `ValueError`
otherwise); each field is parsed as `float(field.split()[0])` in order,
with the first parse failure raising. -/
def get_gpu_general_info : ToolResult → Except String (ℚ × ℚ × ℚ)
  | .absent => .ok (0, 0, 0)
  | .failed => .ok (0, 0, 0)
  | .output s =>
    match splitOnL commaSep (firstLine s) with
    | [gpu_utilization, gpu_memory_used, gpu_memory_free] =>
      match memVal gpu_utilization with
      | none => .error "ValueError"
      | some a =>
        match memVal gpu_memory_used with
        | none => .error "ValueError"
        | some b =>
          match memVal gpu_memory_free with
          | none => .error "ValueError"
          | some c => .ok (a, b, c)
    | _ => .error "ValueError"

/-- Parse of a single well-formed CSV row of the per-process listing:
exactly two `", "`-separated fields, an integer pid and a memory field
whose first whitespace-token is numeric. -/
def lineParse (l : List Char) : Option (Int × ℚ) :=
  match splitOnL commaSep l with
  | [gpu_pid, gpu_ram_usage] =>
    match parsePyInt gpu_pid with
    | none => none
    | some p =>
      match memVal gpu_ram_usage with
      | none => none
      | some q => some (p, q)
  | _ => none

/-- Parse of a whole listing, line by line; `some rows` exactly when every
line is well-formed. -/
def goParse : List (List Char) → Option (List (Int × ℚ))
  | [] => some []
  | l :: ls =>
    match lineParse l, goParse ls with
    | some r, some rs => some (r :: rs)
    | _, _ => none

/-- Rows of a well-formed tool output. -/
def parseListing (s : String) : Option (List (Int × ℚ)) :=
  goParse (linesOf s)

/-- Memory value of the first row whose pid equals the query, `0` if none
matches. -/
def firstMatch : List (Int × ℚ) → Int → ℚ
  | [], _ => 0
  | (p, q) :: rs, pid => if p = pid then q else firstMatch rs pid

/-! ### Concurrency backlog monitor: `monitor_task_queue`
(`llama_cpp/_utils.py`)

`asyncio.all_tasks()` is modelled by an explicit `Except` input: `.ok
tasks` is a successful enumeration of the scheduler's tasks, `.error e`
an exception raised while enumerating.  A task carries the three
attributes the monitor reads: `task._state`, `task.get_name()` and
`str(task.get_coro())`. -/

/-- The attributes of an `asyncio` task read by the monitor. -/
structure PyTask where
  state : String
  task_name : String
  coro_str : String
deriving DecidableEq

/-- The shared status dictionary: the two keys the monitor writes, each
`none` until first written. -/
structure StatusDict where
  running_tasks_count : Option Nat
  running_tasks : Option (List (String × String))
deriving DecidableEq

/-- Drop non-ASCII characters: `str.encode("ascii", errors="ignore")`. -/
def asciiIgnore (l : List Char) : List Char :=
  l.filter (fun c => c.toNat < 128)

/-- The description stored for one task:
`str(task.get_coro()).encode("ascii", errors="ignore").strip().decode("ascii")`. -/
def descOf (t : PyTask) : String :=
  ⟨pyStripChars (asciiIgnore t.coro_str.data)⟩

/-- The dict comprehension `{task.get_name(): desc for task in all_tasks}`,
modelled as an association list read with last-binding-wins lookup
(`dictFind`), matching Python's later-duplicate-key-overwrites. -/
def descMap (tasks : List PyTask) : List (String × String) :=
  tasks.map (fun t => (t.task_name, descOf t))

/-- Lookup in a `descMap`-style association list, last binding winning. -/
def dictFind (m : List (String × String)) (k : String) : Option String :=
  (m.reverse.find? (fun e => e.1 == k)).map Prod.snd

/-- The tasks counted as running: `[task for task in all_tasks if
task._state == "PENDING"]`. -/
def pendingTasks (tasks : List PyTask) : List PyTask :=
  tasks.filter (fun t => t.state == "PENDING")

/-- One successful monitor cycle body: the two in-place key assignments
`status_dict["running_tasks_count"] = ...` then
`status_dict["running_tasks"] = ...`.  The body contains no `await`, so
under the cooperative scheduler it runs without interleaving. -/
def runCycleDict (tasks : List PyTask) (d : StatusDict) : StatusDict :=
  let d1 := { d with running_tasks_count := some (pendingTasks tasks).length }
  { d1 with running_tasks := some (descMap tasks) }

/-- `monitor_task_queue(status_dict)` from `llama_cpp/_utils.py`: on a
successful enumeration the status dictionary is updated and
`asyncio.create_task(monitor_task_queue(status_dict))` schedules a
successor (the `Bool` records that a successor was created); an
exception from the enumeration propagates — there is no `try`/`except`
in the source — so the successor is never scheduled. -/
def monitor_task_queue (enum : Except String (List PyTask)) (d : StatusDict) :
    Except String (StatusDict × Bool) :=
  match enum with
  | .error e => .error e
  | .ok tasks => .ok (runCycleDict tasks d, true)

/-- A 300-character coroutine description used to exhibit that the monitor
stores descriptions untruncated. -/
def longCoroStr : String :=
  ⟨List.replicate 300 'a'⟩

/-! ### Engine log bridge: `llama_log_callback` (`llama_cpp/_logger.py`)

The callback's effect is modelled as the list of `(level, message)` pairs
handed to `logger.log`; a Python `KeyError` from the severity mapping
becomes `Except.error "KeyError"`. -/

/-- The `GGML_LOG_LEVEL_TO_LOGGING_LEVEL` dict: ggml severity to Python
`logging` level (`logging.ERROR = 40`, `WARNING = 30`, `INFO = 20`,
`DEBUG = 10`). -/
def GGML_LOG_LEVEL_TO_LOGGING_LEVEL : List (Int × Int) :=
  [(2, 40), (3, 30), (4, 20), (5, 10)]

/-- Strip one trailing newline: `if _text.endswith("\n"): _text = _text[:-1]`. -/
def stripTrailingNl (t : String) : String :=
  if t.data.getLast? = some '\n' then ⟨t.data.dropLast⟩ else t

/-- `llama_log_callback(level, text, user_data)` from
`llama_cpp/_logger.py`.  `loggerLevel` is the current `logger.level`.  The
dict subscript `GGML_LOG_LEVEL_TO_LOGGING_LEVEL[level]` sits inside the
`if` condition, so it is evaluated for every call and raises `KeyError`
on an unmapped severity regardless of the threshold.  The opaque
`user_data` pointer is unused by the body and omitted. -/
def llama_log_callback (loggerLevel : Int) (level : Int) (text : String) :
    Except String (List (Int × String)) :=
  match GGML_LOG_LEVEL_TO_LOGGING_LEVEL.lookup level with
  | none => .error "KeyError"
  | some lv =>
    if loggerLevel ≤ lv then
      let t := stripTrailingNl text
      if t = "." then .ok [] else .ok [(lv, t)]
    else .ok []

/-! ### Metrics registry/exporter: `MetricsExporter`
(`llama_cpp/llama_metrics.py`)

Each Prometheus histogram is modelled as the ordered list of its
observations, each gauge as the ordered list of its `set` calls, both
tagged with the resolved `(request_type, service)` label values; the
`Info` instrument as the list of `info` writes.  Python's leading
underscore on the instance attributes is dropped (`_histogram_load_time`
becomes `histogram_load_time`).  The Python field `kv_cache_usage_ratio`
is embedded as `kv_cache_usage` (same role, shortened name). -/

/-- The `Metrics` dataclass of `llama_cpp/llama_metrics.py`, with Python
floats as exact rationals and `system_info : Dict[str, Any]` restricted to
string values (the only shape `Info.info` accepts). -/
structure Metrics where
  system_info : List (String × String)
  state_size : Int
  cpu_utilization : ℚ
  cpu_ram_pid : ℚ
  gpu_utilization : ℚ
  gpu_ram_usage : ℚ
  gpu_ram_free : ℚ
  gpu_ram_pid : ℚ
  load_time : ℚ
  sample_time : ℚ
  sample_throughput : ℚ
  time_to_first_token : ℚ
  time_per_output_token : List ℚ
  prompt_eval_time : ℚ
  prompt_eval_throughput : ℚ
  completion_eval_time : ℚ
  completion_eval_throughput : ℚ
  end_to_end_latency : ℚ
  prefill_tokens : Int
  generation_tokens : Int
  kv_cache_usage : ℚ
deriving DecidableEq

/-- State of the exporter's instruments (one list of observations or writes
per instrument, tagged with resolved label values). -/
structure MetricsExporter where
  histogram_load_time : List ((String × String) × ℚ)
  histogram_sample_time : List ((String × String) × ℚ)
  histogram_time_to_first_token : List ((String × String) × ℚ)
  histogram_time_per_output_token : List ((String × String) × ℚ)
  histogram_prompt_eval_time : List ((String × String) × ℚ)
  histogram_completion_eval_time : List ((String × String) × ℚ)
  histogram_e2e_request_latency : List ((String × String) × ℚ)
  histogram_prefill_tokens : List ((String × String) × ℚ)
  histogram_generation_tokens : List ((String × String) × ℚ)
  gauge_prompt_eval_throughput : List ((String × String) × ℚ)
  gauge_completion_eval_throughput : List ((String × String) × ℚ)
  gauge_sample_throughput : List ((String × String) × ℚ)
  gauge_state_size : List ((String × String) × ℚ)
  gauge_cpu_utilization : List ((String × String) × ℚ)
  gauge_cpu_ram_usage_by_pid : List ((String × String) × ℚ)
  gauge_gpu_utilization : List ((String × String) × ℚ)
  gauge_gpu_memory_usage : List ((String × String) × ℚ)
  gauge_gpu_memory_free : List ((String × String) × ℚ)
  gauge_gpu_memory_usage_by_pid : List ((String × String) × ℚ)
  gauge_kv_cache_usage : List ((String × String) × ℚ)
  info_writes : List (List (String × String))
deriving DecidableEq

/-- A fresh exporter: every instrument exists and has no observations. -/
def emptyExporter : MetricsExporter :=
  ⟨[], [], [], [], [], [], [], [], [], [], [], [], [], [], [], [], [], [], [], [], []⟩

/-- The label mapping passed to `log_metrics`, as the item list of a Python
dict (keys unique, insertion-ordered). -/
def validLabels (labels : List (String × String)) : Bool :=
  labels.map Prod.fst == ["request_type", "service"] ||
  labels.map Prod.fst == ["service", "request_type"]

/-- The prometheus-client `.labels(**labels)` call: it raises `ValueError`
unless the keyword names equal the declared label names
`LABELS = ["request_type", "service"]` as a set; otherwise it selects the
child for the value pair `(labels["request_type"], labels["service"])`. -/
def resolveLabels (labels : List (String × String)) : Except String (String × String) :=
  if validLabels labels then
    .ok ((labels.lookup "request_type").getD "", (labels.lookup "service").getD "")
  else .error "ValueError"

/-- `Histogram.observe` for the child selected by `lp`. -/
def observeH (h : List ((String × String) × ℚ)) (lp : String × String) (v : ℚ) :
    List ((String × String) × ℚ) :=
  h ++ [(lp, v)]

/-- `Gauge.set` for the child selected by `lp` (the write history is kept;
the current value is the last entry). -/
def setG (g : List ((String × String) × ℚ)) (lp : String × String) (v : ℚ) :
    List ((String × String) × ℚ) :=
  g ++ [(lp, v)]

/-- Total number of observations a histogram holds for the label pair
`lp`. -/
def histCount (h : List ((String × String) × ℚ)) (lp : String × String) : Nat :=
  (h.filter (fun e => e.1 == lp)).length

/-- `MetricsExporter.log_metrics(metrics, labels)` from
`llama_cpp/llama_metrics.py`.  Every `.labels(**labels)` call resolves the
same label mapping, so the single up-front resolution is faithful: if it
fails, the first `.labels` call raises before any instrument is touched.
`if metrics.time_to_first_token:` is Python float truthiness, i.e. the
histogram is observed exactly when the value is non-zero; the
`for _tpot in metrics.time_per_output_token:` loop observes each element
in order. -/
def log_metrics (self : MetricsExporter) (metrics : Metrics)
    (labels : List (String × String)) : Except String MetricsExporter :=
  match resolveLabels labels with
  | .error e => .error e
  | .ok lp =>
    .ok { self with
      histogram_load_time := observeH self.histogram_load_time lp metrics.load_time
      histogram_sample_time := observeH self.histogram_sample_time lp metrics.sample_time
      histogram_time_to_first_token :=
        if metrics.time_to_first_token ≠ 0 then
          observeH self.histogram_time_to_first_token lp metrics.time_to_first_token
        else self.histogram_time_to_first_token
      histogram_time_per_output_token :=
        self.histogram_time_per_output_token ++
          metrics.time_per_output_token.map (fun v => (lp, v))
      histogram_prompt_eval_time :=
        observeH self.histogram_prompt_eval_time lp metrics.prompt_eval_time
      histogram_completion_eval_time :=
        observeH self.histogram_completion_eval_time lp metrics.completion_eval_time
      histogram_e2e_request_latency :=
        observeH self.histogram_e2e_request_latency lp metrics.end_to_end_latency
      histogram_prefill_tokens :=
        observeH self.histogram_prefill_tokens lp (metrics.prefill_tokens : ℚ)
      histogram_generation_tokens :=
        observeH self.histogram_generation_tokens lp (metrics.generation_tokens : ℚ)
      gauge_prompt_eval_throughput :=
        setG self.gauge_prompt_eval_throughput lp metrics.prompt_eval_throughput
      gauge_completion_eval_throughput :=
        setG self.gauge_completion_eval_throughput lp metrics.completion_eval_throughput
      gauge_sample_throughput := setG self.gauge_sample_throughput lp metrics.sample_throughput
      gauge_cpu_utilization := setG self.gauge_cpu_utilization lp metrics.cpu_utilization
      gauge_cpu_ram_usage_by_pid := setG self.gauge_cpu_ram_usage_by_pid lp metrics.cpu_ram_pid
      gauge_gpu_utilization := setG self.gauge_gpu_utilization lp metrics.gpu_utilization
      gauge_gpu_memory_usage := setG self.gauge_gpu_memory_usage lp metrics.gpu_ram_usage
      gauge_gpu_memory_free := setG self.gauge_gpu_memory_free lp metrics.gpu_ram_free
      gauge_gpu_memory_usage_by_pid :=
        setG self.gauge_gpu_memory_usage_by_pid lp metrics.gpu_ram_pid
      gauge_state_size := setG self.gauge_state_size lp (metrics.state_size : ℚ)
      gauge_kv_cache_usage := setG self.gauge_kv_cache_usage lp metrics.kv_cache_usage
      info_writes := self.info_writes ++ [metrics.system_info] }

/-- All numeric fields of a record are non-negative. -/
def nonnegMetrics (m : Metrics) : Prop :=
  0 ≤ m.state_size ∧ 0 ≤ m.cpu_utilization ∧ 0 ≤ m.cpu_ram_pid ∧
  0 ≤ m.gpu_utilization ∧ 0 ≤ m.gpu_ram_usage ∧ 0 ≤ m.gpu_ram_free ∧
  0 ≤ m.gpu_ram_pid ∧ 0 ≤ m.load_time ∧ 0 ≤ m.sample_time ∧
  0 ≤ m.sample_throughput ∧ 0 ≤ m.time_to_first_token ∧
  (∀ x ∈ m.time_per_output_token, 0 ≤ x) ∧ 0 ≤ m.prompt_eval_time ∧
  0 ≤ m.prompt_eval_throughput ∧ 0 ≤ m.completion_eval_time ∧
  0 ≤ m.completion_eval_throughput ∧ 0 ≤ m.end_to_end_latency ∧
  0 ≤ m.prefill_tokens ∧ 0 ≤ m.generation_tokens ∧ 0 ≤ m.kv_cache_usage

instance (m : Metrics) : Decidable (nonnegMetrics m) := by
  unfold nonnegMetrics; infer_instance

/-! ### Registry construction (`MetricsExporter.__init__`)

`__init__` creates its instruments with the prometheus-client
constructors, which register each instrument name in the process-wide
default `CollectorRegistry`; registering a name that is already present
raises `ValueError("Duplicated timeseries in CollectorRegistry: ...")`.
The registry is modelled as the list of registered names in registration
order. -/

/-- Registration of one instrument name in the default collector registry
(model of `prometheus_client.registry.CollectorRegistry.register`): a
duplicate name raises `ValueError`. -/
def registerCollector (reg : List String) (name : String) : Except String (List String) :=
  if name ∈ reg then .error ("ValueError: Duplicated timeseries in CollectorRegistry: " ++ name)
  else .ok (reg ++ [name])

/-- The instrument names created by `MetricsExporter.__init__`, in source
order: nine histograms, eleven gauges, one info. -/
def instrumentNames : List String :=
  ["llama_cpp_python:load_t_seconds",
   "llama_cpp_python:sample_t_seconds",
   "llama_cpp_python:ttft_seconds",
   "llama_cpp_python:tpot_seconds",
   "llama_cpp_python:p_eval_t_seconds",
   "llama_cpp_python:c_eval_t_seconds",
   "llama_cpp_python:e2e_seconds",
   "llama_cpp_python:prefill_tokens_total",
   "llama_cpp_python:completion_tokens_total",
   "llama_cpp_python:prompt_eval_throughput",
   "llama_cpp_python:completion_eval_throughput",
   "llama_cpp_python:sample_throughput",
   "llama_cpp_python:state_size",
   "llama_cpp_python:cpu_utilization",
   "llama_cpp_python:cpu_memory_usage_by_pid",
   "llama_cpp_python:gpu_utilization",
   "llama_cpp_python:gpu_memory_usage",
   "llama_cpp_python:gpu_memory_free",
   "llama_cpp_python:gpu_memory_usage_by_pid",
   "llama_cpp_python:kv_cache_usage_ratio",
   "llama_cpp_python:info"]

/-- The registration effect of one `MetricsExporter.__init__` run on the
default collector registry: the instrument names are registered in source
order, stopping with a raised `ValueError` at the first duplicate. -/
def metricsExporterInitNames (reg : List String) : Except String (List String) :=
  instrumentNames.foldlM registerCollector reg

/-! ### Concrete inputs used by witnesses -/

/-- A label mapping with exactly the declared keys. -/
def demoLabels : List (String × String) :=
  [("request_type", "chat/completions"), ("service", "llama")]

/-- A well-formed record with all numeric fields non-negative and a non-zero
time to first token. -/
def demoMetrics : Metrics :=
  { system_info := [("n_ctx", "4096")], state_size := 10, cpu_utilization := 1,
    cpu_ram_pid := 2, gpu_utilization := 0, gpu_ram_usage := 0, gpu_ram_free := 0,
    gpu_ram_pid := 0, load_time := 3, sample_time := 1, sample_throughput := 5,
    time_to_first_token := 1, time_per_output_token := [1, 2],
    prompt_eval_time := 1, prompt_eval_throughput := 2, completion_eval_time := 3,
    completion_eval_throughput := 4, end_to_end_latency := 5, prefill_tokens := 6,
    generation_tokens := 2, kv_cache_usage := 1 }

/-- The same record with a zero time to first token (a request that never
emitted a token). -/
def demoMetricsZero : Metrics :=
  { demoMetrics with time_to_first_token := 0 }

/-- A concrete task for the monitor witnesses. -/
def demoTask : PyTask :=
  ⟨"PENDING", "Task-1", "<coroutine object run_asgi>"⟩

/-! ### Helper lemmas -/

/-- Observing one value adds exactly one to the histogram's count for that
label pair. -/
theorem histCount_observeH (h : List ((String × String) × ℚ)) (lp : String × String) (v : ℚ) :
    histCount (observeH h lp v) lp = histCount h lp + 1 := by
  simp [histCount, observeH, List.filter_append]

/-- Observing a whole list of values adds its length to the histogram's
count for that label pair. -/
theorem histCount_append_map (h : List ((String × String) × ℚ)) (lp : String × String)
    (l : List ℚ) :
    histCount (h ++ l.map (fun v => (lp, v))) lp = histCount h lp + l.length := by
  unfold histCount
  rw [List.filter_append, List.length_append]
  congr 1
  rw [List.filter_eq_self.mpr]
  · exact List.length_map l _
  · intro a ha
    obtain ⟨v, hv, rfl⟩ := List.mem_map.mp ha
    simp

/-- Inversion for `goParse` on a non-empty line list. -/
theorem goParse_cons {l : List Char} {ls : List (List Char)} {rows : List (Int × ℚ)}
    (h : goParse (l :: ls) = some rows) :
    ∃ p q rs, lineParse l = some (p, q) ∧ goParse ls = some rs ∧ rows = (p, q) :: rs := by
  unfold goParse at h
  split at h
  · next r rs hl hg =>
    obtain ⟨p', q'⟩ := r
    exact ⟨p', q', rs, hl, hg, by injection h with h2; exact h2.symm⟩
  · exact absurd h (by simp)

/-- Inversion for `lineParse`: a parsed line splits into exactly two fields,
an integer pid and a numeric memory field. -/
theorem lineParse_elim {l : List Char} {p : Int} {q : ℚ} (h : lineParse l = some (p, q)) :
    ∃ a b, splitOnL commaSep l = [a, b] ∧ parsePyInt a = some p ∧ memVal b = some q := by
  unfold lineParse at h
  split at h
  · next a b heq =>
    refine ⟨a, b, heq, ?_⟩
    split at h
    · exact absurd h (by simp)
    · next p' hp =>
      split at h
      · exact absurd h (by simp)
      · next q' hm =>
        injection h with h2
        injection h2 with hp2 hq2
        subst hp2
        subst hq2
        exact ⟨hp, hm⟩
  · next hne => exact absurd h (by simp)

/-- On a fully well-formed listing the pid-lookup loop returns the memory
value of the first matching row, `0` when no row matches. -/
theorem gpuLoop_parsed (pid : Int) :
    ∀ (lines : List (List Char)) (rows : List (Int × ℚ)),
      goParse lines = some rows → gpuLoop pid lines = .ok (firstMatch rows pid) := by
  intro lines
  induction lines with
  | nil =>
    intro rows h
    unfold goParse at h
    simp at h
    subst h
    rfl
  | cons l ls ih =>
    intro rows h
    obtain ⟨p, q, rs, hl, hg, hrow⟩ := goParse_cons h
    subst hrow
    obtain ⟨a, b, hs, hp, hm⟩ := lineParse_elim hl
    unfold gpuLoop
    rw [hs]
    simp only [hp]
    by_cases hpid : p = pid
    · rw [if_pos hpid, hm]
      unfold firstMatch
      rw [if_pos hpid]
    · rw [if_neg hpid]
      unfold firstMatch
      rw [if_neg hpid]
      exact ih rs hg

/-- Every enumerated task's name is a key of the description mapping. -/
theorem dictFind_mem {tasks : List PyTask} {t : PyTask} (ht : t ∈ tasks) :
    dictFind (descMap tasks) t.task_name ≠ none := by
  have hmem : (t.task_name, descOf t) ∈ (descMap tasks).reverse := by
    rw [List.mem_reverse]
    exact List.mem_map.mpr ⟨t, ht, rfl⟩
  have hfind : ((descMap tasks).reverse.find? (fun e => e.1 == t.task_name)).isSome := by
    apply List.find?_isSome.mpr
    exact ⟨(t.task_name, descOf t), hmem, by simp⟩
  unfold dictFind
  cases hf : (descMap tasks).reverse.find? (fun e => e.1 == t.task_name) with
  | none => rw [hf] at hfind; simp at hfind
  | some e => simp [hf]

/-! ### Claims -/

/-- C1: for every `Metrics` record with all-non-negative numeric fields and
every label mapping with exactly the keys `request_type` and `service`,
`MetricsExporter.log_metrics` completes without raising; each of the
unconditionally observed histograms (load time, sample time, prompt
evaluation time, completion evaluation time, end-to-end latency, prefill
tokens, generation tokens) gains exactly one observation, time to first
token gains exactly one when it is non-zero, and the per-output-token
histogram gains exactly `len(metrics.time_per_output_token)`
observations. -/
theorem log_metrics_histogram_counts
    (st : MetricsExporter) (m : Metrics) (labels : List (String × String))
    (hl : validLabels labels = true) (hm : nonnegMetrics m) :
    ∃ lp st', resolveLabels labels = .ok lp ∧ log_metrics st m labels = .ok st' ∧
      histCount st'.histogram_load_time lp = histCount st.histogram_load_time lp + 1 ∧
      histCount st'.histogram_sample_time lp = histCount st.histogram_sample_time lp + 1 ∧
      histCount st'.histogram_prompt_eval_time lp =
        histCount st.histogram_prompt_eval_time lp + 1 ∧
      histCount st'.histogram_completion_eval_time lp =
        histCount st.histogram_completion_eval_time lp + 1 ∧
      histCount st'.histogram_e2e_request_latency lp =
        histCount st.histogram_e2e_request_latency lp + 1 ∧
      histCount st'.histogram_prefill_tokens lp = histCount st.histogram_prefill_tokens lp + 1 ∧
      histCount st'.histogram_generation_tokens lp =
        histCount st.histogram_generation_tokens lp + 1 ∧
      (m.time_to_first_token ≠ 0 →
        histCount st'.histogram_time_to_first_token lp =
          histCount st.histogram_time_to_first_token lp + 1) ∧
      histCount st'.histogram_time_per_output_token lp =
        histCount st.histogram_time_per_output_token lp + m.time_per_output_token.length := by
  have hres : resolveLabels labels =
      .ok ((labels.lookup "request_type").getD "", (labels.lookup "service").getD "") := by
    unfold resolveLabels
    rw [if_pos hl]
  unfold log_metrics
  rw [hres]
  refine ⟨_, _, rfl, rfl, ?_, ?_, ?_, ?_, ?_, ?_, ?_, ?_, ?_⟩
  · exact histCount_observeH _ _ _
  · exact histCount_observeH _ _ _
  · exact histCount_observeH _ _ _
  · exact histCount_observeH _ _ _
  · exact histCount_observeH _ _ _
  · exact histCount_observeH _ _ _
  · exact histCount_observeH _ _ _
  · intro h
    show histCount (if m.time_to_first_token ≠ 0 then _ else _) _ = _
    rw [if_pos h]
    exact histCount_observeH _ _ _
  · exact histCount_append_map _ _ _

/-- C1 witness: the theorem applied to a fresh exporter, a concrete
non-negative record and a concrete valid label mapping. -/
theorem log_metrics_histogram_counts_witness :
    ∃ lp st', resolveLabels demoLabels = .ok lp ∧
      log_metrics emptyExporter demoMetrics demoLabels = .ok st' ∧
      histCount st'.histogram_load_time lp =
        histCount emptyExporter.histogram_load_time lp + 1 ∧
      histCount st'.histogram_sample_time lp =
        histCount emptyExporter.histogram_sample_time lp + 1 ∧
      histCount st'.histogram_prompt_eval_time lp =
        histCount emptyExporter.histogram_prompt_eval_time lp + 1 ∧
      histCount st'.histogram_completion_eval_time lp =
        histCount emptyExporter.histogram_completion_eval_time lp + 1 ∧
      histCount st'.histogram_e2e_request_latency lp =
        histCount emptyExporter.histogram_e2e_request_latency lp + 1 ∧
      histCount st'.histogram_prefill_tokens lp =
        histCount emptyExporter.histogram_prefill_tokens lp + 1 ∧
      histCount st'.histogram_generation_tokens lp =
        histCount emptyExporter.histogram_generation_tokens lp + 1 ∧
      (demoMetrics.time_to_first_token ≠ 0 →
        histCount st'.histogram_time_to_first_token lp =
          histCount emptyExporter.histogram_time_to_first_token lp + 1) ∧
      histCount st'.histogram_time_per_output_token lp =
        histCount emptyExporter.histogram_time_per_output_token lp +
          demoMetrics.time_per_output_token.length :=
  log_metrics_histogram_counts emptyExporter demoMetrics demoLabels (by decide) (by decide)

/-- C5: for every record and valid label mapping, `log_metrics` observes
time to first token into its histogram exactly when the value is non-zero
(zero adds no observation, any non-zero value adds exactly one). -/
theorem ttft_observed_iff_nonzero
    (st : MetricsExporter) (m : Metrics) (labels : List (String × String))
    (hl : validLabels labels = true) :
    ∃ lp st', resolveLabels labels = .ok lp ∧ log_metrics st m labels = .ok st' ∧
      histCount st'.histogram_time_to_first_token lp =
        histCount st.histogram_time_to_first_token lp +
          (if m.time_to_first_token ≠ 0 then 1 else 0) := by
  have hres : resolveLabels labels =
      .ok ((labels.lookup "request_type").getD "", (labels.lookup "service").getD "") := by
    unfold resolveLabels
    rw [if_pos hl]
  unfold log_metrics
  rw [hres]
  refine ⟨_, _, rfl, rfl, ?_⟩
  by_cases h : m.time_to_first_token ≠ 0
  · show histCount (if m.time_to_first_token ≠ 0 then _ else _) _ = _
    rw [if_pos h, if_pos h]
    exact histCount_observeH _ _ _
  · show histCount (if m.time_to_first_token ≠ 0 then _ else _) _ = _
    rw [if_neg h, if_neg h]
    rfl

/-- C5 witness: the theorem applied to a fresh exporter and a record whose
time to first token is zero. -/
theorem ttft_observed_iff_nonzero_witness :
    ∃ lp st', resolveLabels demoLabels = .ok lp ∧
      log_metrics emptyExporter demoMetricsZero demoLabels = .ok st' ∧
      histCount st'.histogram_time_to_first_token lp =
        histCount emptyExporter.histogram_time_to_first_token lp +
          (if demoMetricsZero.time_to_first_token ≠ 0 then 1 else 0) :=
  ttft_observed_iff_nonzero emptyExporter demoMetricsZero demoLabels (by decide)

/-- C2 counterexample: the claim says malformed tool output never raises,
but a line that does not split into two `", "`-separated fields makes the
unpacking raise `ValueError`, which the `except` clause (which catches
only `CalledProcessError` and `FileNotFoundError`) does not catch — in
both query operations. -/
theorem gpu_query_malformed_output_raises :
    get_gpu_info_by_pid (.output "not a csv line") 1234 = .error "ValueError" ∧
    get_gpu_general_info (.output "not a csv line") = .error "ValueError" :=
  ⟨rfl, rfl⟩

/-- C2 amended: when the external tool is absent or exits with an error,
`get_gpu_info_by_pid` returns `0.0` and `get_gpu_general_info` returns
`(0.0, 0.0, 0.0)` without raising; but output whose lines do not match the
expected comma-separated format raises an uncaught error to the caller. -/
theorem gpu_query_fallback_amended :
    (∀ pid : Int, get_gpu_info_by_pid .absent pid = .ok 0) ∧
    (∀ pid : Int, get_gpu_info_by_pid .failed pid = .ok 0) ∧
    get_gpu_general_info .absent = .ok (0, 0, 0) ∧
    get_gpu_general_info .failed = .ok (0, 0, 0) ∧
    get_gpu_info_by_pid (.output "garbage") 1234 = .error "ValueError" ∧
    get_gpu_general_info (.output "garbage") = .error "ValueError" :=
  ⟨fun _ => rfl, fun _ => rfl, rfl, rfl, rfl, rfl⟩

set_option maxRecDepth 8000 in
/-- C3 counterexample: the claim says stored task descriptions are
truncated, but a 300-character coroutine description is stored verbatim in
the status structure after a monitor cycle — no truncation exists in the
code. -/
theorem monitor_description_not_truncated :
    runCycleDict [⟨"PENDING", "Task-1", longCoroStr⟩] ⟨none, none⟩ =
      ⟨some 1, some [("Task-1", longCoroStr)]⟩ ∧
    longCoroStr.length = 300 :=
  ⟨rfl, rfl⟩

/-- C3 amended: after a monitor cycle the status structure's pending count
equals the number of enumerated tasks in the `PENDING` state, and its
description mapping holds, for every enumerated task (pending or not), an
encoding-safe description (non-ASCII characters removed and surrounding
whitespace trimmed, but not truncated) keyed by the task's name; the two
keys are written by consecutive in-place assignments with no suspension
point between them, so a cooperative reader still observes either the
pre-cycle or the post-cycle contents. -/
theorem monitor_status_amended (tasks : List PyTask) (d : StatusDict) :
    (runCycleDict tasks d).running_tasks_count =
      some (tasks.filter (fun t => t.state == "PENDING")).length ∧
    (runCycleDict tasks d).running_tasks = some (descMap tasks) ∧
    ∀ t, t ∈ tasks → dictFind (descMap tasks) t.task_name ≠ none :=
  ⟨rfl, rfl, fun _ ht => dictFind_mem ht⟩

/-- C3 witness: the amended theorem applied to a concrete one-task
enumeration, giving the key-coverage conjunct at that task. -/
theorem monitor_status_amended_witness :
    dictFind (descMap [demoTask]) demoTask.task_name ≠ none :=
  (monitor_status_amended [demoTask] ⟨none, none⟩).2.2 demoTask (by simp)

/-- C4 counterexample: the claim says a cycle whose task enumeration fails
still reschedules the monitor, but an exception from `asyncio.all_tasks()`
propagates out of `monitor_task_queue` — there is no `try`/`except` — so
`asyncio.create_task` is never reached and no successor cycle is
scheduled. -/
theorem monitor_failed_cycle_no_reschedule :
    monitor_task_queue (.error "RuntimeError") ⟨none, none⟩ = .error "RuntimeError" ∧
    (monitor_task_queue (.error "RuntimeError") ⟨none, none⟩).isOk = false :=
  ⟨rfl, rfl⟩

/-- C4 amended: a cycle whose enumeration succeeds updates the status
structure and schedules a new instance of itself before returning, so the
monitor never reaches a terminal state while enumeration keeps succeeding;
but a cycle in which enumeration raises propagates the exception without
rescheduling, terminating the monitor. -/
theorem monitor_reschedule_amended :
    (∀ (tasks : List PyTask) (d : StatusDict),
      monitor_task_queue (.ok tasks) d = .ok (runCycleDict tasks d, true)) ∧
    (∀ (e : String) (d : StatusDict), monitor_task_queue (.error e) d = .error e) :=
  ⟨fun _ _ => rfl, fun _ _ => rfl⟩

/-- C6: on the single-line output `"1234, 512 MiB"` the pid query returns
`512.0` for pid 1234 and `0.0` for pid 9999; in general, on any
well-formed CSV listing the function returns the memory value of the
(first) row whose pid field equals the queried pid, and `0.0` when no row
matches. -/
theorem gpu_info_by_pid_rows :
    get_gpu_info_by_pid (.output "1234, 512 MiB") 1234 = .ok 512 ∧
    get_gpu_info_by_pid (.output "1234, 512 MiB") 9999 = .ok 0 ∧
    ∀ (s : String) (rows : List (Int × ℚ)) (pid : Int),
      parseListing s = some rows →
      get_gpu_info_by_pid (.output s) pid = .ok (firstMatch rows pid) :=
  ⟨rfl, rfl, fun s rows pid h => gpuLoop_parsed pid (linesOf s) rows h⟩

/-- C6 witness: the general part of the theorem applied to the concrete
listing of the spec. -/
theorem gpu_info_by_pid_rows_witness :
    parseListing "1234, 512 MiB" = some [((1234 : Int), (512 : ℚ))] ∧
    get_gpu_info_by_pid (.output "1234, 512 MiB") 1234 =
      .ok (firstMatch [((1234 : Int), (512 : ℚ))] 1234) :=
  ⟨rfl, gpu_info_by_pid_rows.2.2 "1234, 512 MiB" [(1234, 512)] 1234 rfl⟩

/-- C7: on the aggregate output `"45 %, 2048 MiB, 6144 MiB"` the query
returns `(45.0, 2048.0, 6144.0)`; in general, whenever the first output
line splits into three comma-separated unit-suffixed fields whose leading
tokens are numeric, the function returns the three values parsed
positionally. -/
theorem gpu_general_info_parses :
    get_gpu_general_info (.output "45 %, 2048 MiB, 6144 MiB") = .ok (45, 2048, 6144) ∧
    ∀ (s : String) (u m f : List Char) (a b c : ℚ),
      splitOnL commaSep (firstLine s) = [u, m, f] →
      memVal u = some a → memVal m = some b → memVal f = some c →
      get_gpu_general_info (.output s) = .ok (a, b, c) := by
  refine ⟨rfl, fun s u m f a b c hs hu hm hf => ?_⟩
  show (match splitOnL commaSep (firstLine s) with
    | [gpu_utilization, gpu_memory_used, gpu_memory_free] =>
      match memVal gpu_utilization with
      | none => Except.error "ValueError"
      | some a =>
        match memVal gpu_memory_used with
        | none => Except.error "ValueError"
        | some b =>
          match memVal gpu_memory_free with
          | none => Except.error "ValueError"
          | some c => Except.ok (a, b, c)
    | _ => Except.error "ValueError") = Except.ok (a, b, c)
  rw [hs]
  simp only [hu, hm, hf]

/-- C7 witness: the general part of the theorem applied to the concrete
aggregate output of the spec. -/
theorem gpu_general_info_parses_witness :
    get_gpu_general_info (.output "45 %, 2048 MiB, 6144 MiB") =
      .ok ((45 : ℚ), (2048 : ℚ), (6144 : ℚ)) :=
  gpu_general_info_parses.2 "45 %, 2048 MiB, 6144 MiB"
    "45 %".data "2048 MiB".data "6144 MiB".data 45 2048 6144 rfl rfl rfl rfl

/-- C8 counterexample: the claim says a second construction of
`MetricsExporter` in the same process does not fail, but the second run of
the registration sequence raises `ValueError` at its first instrument,
whose name is already present in the process-wide default collector
registry. -/
theorem metrics_exporter_second_init_fails :
    metricsExporterInitNames [] = .ok instrumentNames ∧
    metricsExporterInitNames instrumentNames =
      .error
        "ValueError: Duplicated timeseries in CollectorRegistry: llama_cpp_python:load_t_seconds" :=
  ⟨rfl, rfl⟩

/-- C8 amended: a first construction registers the twenty-one instrument
names, all distinct, so no name is ever duplicated in the registry; but a
second construction within the same process fails with a
duplicated-timeseries `ValueError` instead of being idempotent. -/
theorem metrics_exporter_reinit_amended :
    metricsExporterInitNames [] = .ok instrumentNames ∧
    instrumentNames.Nodup ∧
    (metricsExporterInitNames instrumentNames).isOk = false :=
  ⟨rfl, by decide, rfl⟩

/-- C9: for every severity in `{2, 3, 4, 5}` and every message, when the
logger's threshold admits the mapped level, the callback discards a
message that (after removing its trailing newline) is exactly `"."`, and
logs every other message at the level mapped from the severity. -/
theorem log_callback_filters_and_logs
    (level : Int) (hlev : level = 2 ∨ level = 3 ∨ level = 4 ∨ level = 5)
    (loggerLevel : Int) (text : String) (lv : Int)
    (hmap : GGML_LOG_LEVEL_TO_LOGGING_LEVEL.lookup level = some lv)
    (hthr : loggerLevel ≤ lv) :
    llama_log_callback loggerLevel level text =
      .ok (if stripTrailingNl text = "." then [] else [(lv, stripTrailingNl text)]) := by
  unfold llama_log_callback
  rw [hmap]
  by_cases h : stripTrailingNl text = "." <;> simp [hthr, h]

/-- C9 witness: the theorem applied at severity 4 (INFO), a permissive
threshold, and a newline-terminated message. -/
theorem log_callback_filters_and_logs_witness :
    llama_log_callback 10 4 "hello\n" =
      .ok (if stripTrailingNl "hello\n" = "." then []
        else [((20 : Int), stripTrailingNl "hello\n")]) :=
  log_callback_filters_and_logs 4 (Or.inr (Or.inr (Or.inl rfl))) 10 "hello\n" 20
    (by decide) (by decide)

/-- C10: for every severity outside `{2, 3, 4, 5}` the callback raises
`KeyError` — the severity mapping is a dict defined on exactly those four
keys, and the subscript sits inside the threshold comparison, so the
lookup is reached (and raises) for every threshold value. -/
theorem log_callback_unknown_level_raises
    (level : Int) (h : ¬(level = 2 ∨ level = 3 ∨ level = 4 ∨ level = 5))
    (loggerLevel : Int) (text : String) :
    llama_log_callback loggerLevel level text = .error "KeyError" := by
  push_neg at h
  obtain ⟨h2, h3, h4, h5⟩ := h
  have e2 : (level == 2) = false := beq_eq_false_iff_ne.mpr h2
  have e3 : (level == 3) = false := beq_eq_false_iff_ne.mpr h3
  have e4 : (level == 4) = false := beq_eq_false_iff_ne.mpr h4
  have e5 : (level == 5) = false := beq_eq_false_iff_ne.mpr h5
  have hl : GGML_LOG_LEVEL_TO_LOGGING_LEVEL.lookup level = none := by
    simp [GGML_LOG_LEVEL_TO_LOGGING_LEVEL, List.lookup, e2, e3, e4, e5]
  unfold llama_log_callback
  rw [hl]

/-- C10 witness: the theorem applied at the unmapped severity 7 with a
fully permissive threshold. -/
theorem log_callback_unknown_level_raises_witness :
    llama_log_callback 0 7 "boom" = .error "KeyError" :=
  log_callback_unknown_level_raises 7 (by decide) 0 "boom"
